import Mathlib

/-!
Verification of the massa-appiah OBD-II telemetry repository.

Shallow embedding of `src/mock_obd.py` (the telemetry sample generator,
the stream adapter and the storage writer) and of `src/utils.py`
(the `DB` constructor validation).

Modelling conventions:
* Python floats are modelled as rationals (ℚ); Python ints as ℤ.
* The global Mersenne-Twister RNG is modelled by an explicit record of
  draws, one per `random.*` call in the source.  The documented
  postconditions of `random.randint`, `random.uniform` and
  `random.sample` (a value inside the requested closed interval; a
  sample of the requested number of distinct catalog elements) become
  the validity predicate `DrawsValid`.  A fixed seed determines the
  draw record, so "same seed" is "same `Draws` value".
* `datetime.now().isoformat()` is modelled by the wall-clock time as a
  rational (the ISO string determines the time and vice versa);
  `int(time.time())` is its floor.
* Python `round(x, n)` is modelled by rounding `x * 10^n` to the
  nearest integer; the tie-breaking rule is irrelevant to every claim
  proved here (the interval bounds are exact multiples of `10^(-n)`).
-/

/-- One diagnostic trouble code: short identifier plus description
    (`{"code": ..., "description": ...}` in `src/mock_obd.py`). -/
structure Dtc where
  code : String
  description : String
deriving DecidableEq, Repr

/-- The fixed 10-entry DTC catalog `dtc_pool` from `src/mock_obd.py`. -/
def dtc_pool : List Dtc :=
  [ ⟨"P0300", "Random/Multiple Cylinder Misfire Detected"⟩,
    ⟨"P0420", "Catalyst System Efficiency Below Threshold"⟩,
    ⟨"P0171", "System Too Lean (Bank 1)"⟩,
    ⟨"P0128", "Coolant Thermostat Temperature Below Regulating Temperature"⟩,
    ⟨"P0442", "EVAP System Leak Detected (small leak)"⟩,
    ⟨"P0455", "EVAP System Leak Detected (large leak)"⟩,
    ⟨"P0301", "Cylinder 1 Misfire Detected"⟩,
    ⟨"P0401", "EGR System Flow Insufficient"⟩,
    ⟨"P0507", "Idle Control System RPM Higher Than Expected"⟩,
    ⟨"P0113", "Intake Air Temperature Sensor Circuit High"⟩ ]

/-- Python `round(x, 2)`: round to 2 decimal places. -/
def round2 (x : ℚ) : ℚ := (round (x * 100) : ℤ) / 100

/-- Python `round(x, 1)`: round to 1 decimal place. -/
def round1 (x : ℚ) : ℚ := (round (x * 10) : ℤ) / 10

/-- One snapshot returned by `mock_obd_data` (the `mock_data` dict). -/
structure Snapshot where
  rpm : ℤ
  speed : ℤ
  throttle_position : ℚ
  engine_load : ℚ
  coolant_temp : ℤ
  intake_temp : ℤ
  oil_temp : ℤ
  fuel_level : ℚ
  fuel_pressure : ℚ
  fuel_rate : ℚ
  maf : ℚ
  intake_pressure : ℚ
  battery_voltage : ℚ
  ambient_temp : ℤ
  barometric_pressure : ℚ
  distance : ℚ
  runtime : ℤ
  mil_status : Bool
  dtc_count : ℤ
  dtcs : List Dtc
  timestamp : ℚ
  unix_timestamp : ℤ

/-- The outcomes of the `random.*` calls made by one run of
    `mock_obd_data`, in source order.  A fixed RNG seed determines this
    record completely. -/
structure Draws where
  has_dtc : Bool
  dtcCountDraw : ℤ
  dtcDraw : List Dtc
  rpm : ℤ
  speed : ℤ
  throttle_position : ℚ
  engine_load : ℚ
  coolant_temp : ℤ
  intake_temp : ℤ
  oil_temp : ℤ
  fuel_level : ℚ
  fuel_pressure : ℚ
  fuel_rate : ℚ
  maf : ℚ
  intake_pressure : ℚ
  battery_voltage : ℚ
  ambient_temp : ℤ
  barometric_pressure : ℚ
  distance : ℚ
  runtime : ℤ

/-- `random.sample(pool, k)`: raises `ValueError` when the requested
    count exceeds the population, otherwise returns the drawn sample
    (the drawn elements are supplied by the RNG draw record; their
    contract is part of `DrawsValid`). -/
def randSample (pool : List Dtc) (k : ℕ) (draw : List Dtc) :
    Except String (List Dtc) :=
  if pool.length < k then
    .error "Sample larger than population or is negative"
  else
    .ok draw

/-- Documented postconditions of the `random.*` calls in
    `mock_obd_data`: `random.randint(a, b)` and `random.uniform(a, b)`
    land in the closed interval `[a, b]`, and `random.sample(dtc_pool, k)`
    yields `k` distinct elements of the catalog. -/
def DrawsValid (d : Draws) : Prop :=
  (1 ≤ d.dtcCountDraw ∧ d.dtcCountDraw ≤ 3) ∧
  (d.has_dtc = true →
    d.dtcDraw.length = d.dtcCountDraw.toNat ∧ d.dtcDraw.Nodup ∧
    ∀ x ∈ d.dtcDraw, x ∈ dtc_pool) ∧
  (700 ≤ d.rpm ∧ d.rpm ≤ 3500) ∧
  (0 ≤ d.speed ∧ d.speed ≤ 120) ∧
  (0 ≤ d.throttle_position ∧ d.throttle_position ≤ 100) ∧
  (10 ≤ d.engine_load ∧ d.engine_load ≤ 90) ∧
  (75 ≤ d.coolant_temp ∧ d.coolant_temp ≤ 105) ∧
  (20 ≤ d.intake_temp ∧ d.intake_temp ≤ 60) ∧
  (80 ≤ d.oil_temp ∧ d.oil_temp ≤ 110) ∧
  (10 ≤ d.fuel_level ∧ d.fuel_level ≤ 95) ∧
  (200 ≤ d.fuel_pressure ∧ d.fuel_pressure ≤ 400) ∧
  (1/2 ≤ d.fuel_rate ∧ d.fuel_rate ≤ 15) ∧
  (2 ≤ d.maf ∧ d.maf ≤ 25) ∧
  (30 ≤ d.intake_pressure ∧ d.intake_pressure ≤ 100) ∧
  (25/2 ≤ d.battery_voltage ∧ d.battery_voltage ≤ 29/2) ∧
  (15 ≤ d.ambient_temp ∧ d.ambient_temp ≤ 35) ∧
  (95 ≤ d.barometric_pressure ∧ d.barometric_pressure ≤ 105) ∧
  (0 ≤ d.distance ∧ d.distance ≤ 50000) ∧
  (0 ≤ d.runtime ∧ d.runtime ≤ 10000)

/-- `mock_obd_data` from `src/mock_obd.py`: decide fault presence,
    draw 1–3 distinct DTCs from the catalog when faults are present,
    sample every telemetry field, and stamp the snapshot with the
    current time (`now`, a rational wall-clock reading). -/
def mock_obd_data (d : Draws) (now : ℚ) : Except String Snapshot :=
  let dtc_count : ℤ := if d.has_dtc then d.dtcCountDraw else 0
  match (if 0 < dtc_count then randSample dtc_pool dtc_count.toNat d.dtcDraw
         else .ok []) with
  | .error e => .error e
  | .ok active_dtcs =>
      .ok
        { rpm := d.rpm
          speed := d.speed
          throttle_position := round2 d.throttle_position
          engine_load := round2 d.engine_load
          coolant_temp := d.coolant_temp
          intake_temp := d.intake_temp
          oil_temp := d.oil_temp
          fuel_level := round2 d.fuel_level
          fuel_pressure := round2 d.fuel_pressure
          fuel_rate := round2 d.fuel_rate
          maf := round2 d.maf
          intake_pressure := round2 d.intake_pressure
          battery_voltage := round2 d.battery_voltage
          ambient_temp := d.ambient_temp
          barometric_pressure := round2 d.barometric_pressure
          distance := round1 d.distance
          runtime := d.runtime
          mil_status := d.has_dtc
          dtc_count := dtc_count
          dtcs := active_dtcs
          timestamp := now
          unix_timestamp := ⌊now⌋ }

/-- The snapshot `mock_obd_data` assembles from draw record `d` at time
    `now` when the DTC sample is `active`. -/
def snapshotOf (d : Draws) (now : ℚ) (active : List Dtc) : Snapshot :=
  { rpm := d.rpm
    speed := d.speed
    throttle_position := round2 d.throttle_position
    engine_load := round2 d.engine_load
    coolant_temp := d.coolant_temp
    intake_temp := d.intake_temp
    oil_temp := d.oil_temp
    fuel_level := round2 d.fuel_level
    fuel_pressure := round2 d.fuel_pressure
    fuel_rate := round2 d.fuel_rate
    maf := round2 d.maf
    intake_pressure := round2 d.intake_pressure
    battery_voltage := round2 d.battery_voltage
    ambient_temp := d.ambient_temp
    barometric_pressure := round2 d.barometric_pressure
    distance := round1 d.distance
    runtime := d.runtime
    mil_status := d.has_dtc
    dtc_count := if d.has_dtc then d.dtcCountDraw else 0
    dtcs := active
    timestamp := now
    unix_timestamp := ⌊now⌋ }

lemma dtc_pool_length : dtc_pool.length = 10 := rfl

lemma mock_obd_data_eq (d : Draws) (now : ℚ) (hd : DrawsValid d) :
    mock_obd_data d now =
      .ok (snapshotOf d now (if d.has_dtc then d.dtcDraw else [])) := by
  obtain ⟨⟨h1, h3⟩, _⟩ := hd
  unfold mock_obd_data snapshotOf randSample
  cases h : d.has_dtc with
  | false => simp [h]
  | true =>
      have hpos : (0 : ℤ) < d.dtcCountDraw := by omega
      have hlen : ¬ dtc_pool.length < d.dtcCountDraw.toNat := by
        rw [dtc_pool_length]; omega
      simp [h, hpos, hlen]

lemma round_mono' {x y : ℚ} (h : x ≤ y) : round x ≤ round y := by
  rw [round_eq, round_eq]
  exact Int.floor_mono (by linarith)

lemma round2_mono {x y : ℚ} (h : x ≤ y) : round2 x ≤ round2 y := by
  unfold round2
  have h1 := round_mono' (x := x * 100) (y := y * 100) (by linarith)
  have h2 : ((round (x * 100) : ℤ) : ℚ) ≤ ((round (y * 100) : ℤ) : ℚ) := by
    exact_mod_cast h1
  linarith

lemma round1_mono {x y : ℚ} (h : x ≤ y) : round1 x ≤ round1 y := by
  unfold round1
  have h1 := round_mono' (x := x * 10) (y := y * 10) (by linarith)
  have h2 : ((round (x * 10) : ℤ) : ℚ) ≤ ((round (y * 10) : ℤ) : ℚ) := by
    exact_mod_cast h1
  linarith

/-- Interval membership of a rounded value, for endpoints fixed by
    rounding. -/
lemma round2_mem {a b x : ℚ} (ha : round2 a = a) (hb : round2 b = b)
    (h1 : a ≤ x) (h2 : x ≤ b) : a ≤ round2 x ∧ round2 x ≤ b :=
  ⟨ha ▸ round2_mono h1, hb ▸ round2_mono h2⟩

lemma round1_mem {a b x : ℚ} (ha : round1 a = a) (hb : round1 b = b)
    (h1 : a ≤ x) (h2 : x ≤ b) : a ≤ round1 x ∧ round1 x ≤ b :=
  ⟨ha ▸ round1_mono h1, hb ▸ round1_mono h2⟩

/-- The documented closed interval of every numeric field of a
    snapshot (claim text and the comments in `mock_obd_data`). -/
def inRanges (s : Snapshot) : Prop :=
  (700 ≤ s.rpm ∧ s.rpm ≤ 3500) ∧
  (0 ≤ s.speed ∧ s.speed ≤ 120) ∧
  (0 ≤ s.throttle_position ∧ s.throttle_position ≤ 100) ∧
  (10 ≤ s.engine_load ∧ s.engine_load ≤ 90) ∧
  (75 ≤ s.coolant_temp ∧ s.coolant_temp ≤ 105) ∧
  (20 ≤ s.intake_temp ∧ s.intake_temp ≤ 60) ∧
  (80 ≤ s.oil_temp ∧ s.oil_temp ≤ 110) ∧
  (10 ≤ s.fuel_level ∧ s.fuel_level ≤ 95) ∧
  (200 ≤ s.fuel_pressure ∧ s.fuel_pressure ≤ 400) ∧
  (1/2 ≤ s.fuel_rate ∧ s.fuel_rate ≤ 15) ∧
  (2 ≤ s.maf ∧ s.maf ≤ 25) ∧
  (30 ≤ s.intake_pressure ∧ s.intake_pressure ≤ 100) ∧
  (25/2 ≤ s.battery_voltage ∧ s.battery_voltage ≤ 29/2) ∧
  (15 ≤ s.ambient_temp ∧ s.ambient_temp ≤ 35) ∧
  (95 ≤ s.barometric_pressure ∧ s.barometric_pressure ≤ 105) ∧
  (0 ≤ s.distance ∧ s.distance ≤ 50000) ∧
  (0 ≤ s.runtime ∧ s.runtime ≤ 10000)

/-- C1: every numeric field of a generated snapshot lies within its
    documented closed interval, including after the rounding applied by
    the source (`round(_, 2)` for the continuous fields, `round(_, 1)`
    for distance). -/
theorem C1_fields_in_ranges (d : Draws) (now : ℚ) (s : Snapshot)
    (hd : DrawsValid d) (h : mock_obd_data d now = .ok s) : inRanges s := by
  rw [mock_obd_data_eq d now hd] at h
  obtain ⟨_, _, h3, h4, h5, h6, h7, h8, h9, h10, h11, h12, h13, h14, h15,
    h16, h17, h18, h19⟩ := hd
  cases h
  refine ⟨h3, h4, ?_, ?_, h7, h8, h9, ?_, ?_, ?_, ?_, ?_, ?_, h16, ?_, ?_, h19⟩
  · exact round2_mem (by norm_num [round2]) (by norm_num [round2]) h5.1 h5.2
  · exact round2_mem (by norm_num [round2]) (by norm_num [round2]) h6.1 h6.2
  · exact round2_mem (by norm_num [round2]) (by norm_num [round2]) h10.1 h10.2
  · exact round2_mem (by norm_num [round2]) (by norm_num [round2]) h11.1 h11.2
  · exact round2_mem (by norm_num [round2]) (by norm_num [round2]) h12.1 h12.2
  · exact round2_mem (by norm_num [round2]) (by norm_num [round2]) h13.1 h13.2
  · exact round2_mem (by norm_num [round2]) (by norm_num [round2]) h14.1 h14.2
  · exact round2_mem (by norm_num [round2]) (by norm_num [round2]) h15.1 h15.2
  · exact round2_mem (by norm_num [round2]) (by norm_num [round2]) h17.1 h17.2
  · exact round1_mem (by norm_num [round1]) (by norm_num [round1]) h18.1 h18.2

/-- A concrete valid draw record with faults present. -/
def exDraws : Draws :=
  { has_dtc := true
    dtcCountDraw := 2
    dtcDraw := [⟨"P0420", "Catalyst System Efficiency Below Threshold"⟩,
                ⟨"P0300", "Random/Multiple Cylinder Misfire Detected"⟩]
    rpm := 900
    speed := 60
    throttle_position := 35
    engine_load := 50
    coolant_temp := 90
    intake_temp := 30
    oil_temp := 95
    fuel_level := 55
    fuel_pressure := 300
    fuel_rate := 8
    maf := 12
    intake_pressure := 65
    battery_voltage := 13
    ambient_temp := 25
    barometric_pressure := 100
    distance := 1234
    runtime := 3600 }

lemma exDraws_valid : DrawsValid exDraws := by
  refine ⟨by norm_num [exDraws], ?_, ?_, ?_, ?_, ?_, ?_, ?_, ?_, ?_, ?_, ?_,
    ?_, ?_, ?_, ?_, ?_, ?_, ?_⟩ <;>
    simp [exDraws, dtc_pool] <;> norm_num

theorem C1_fields_in_ranges_witness :
    DrawsValid exDraws ∧
      inRanges (snapshotOf exDraws 0
        (if exDraws.has_dtc then exDraws.dtcDraw else [])) :=
  ⟨exDraws_valid, C1_fields_in_ranges exDraws 0 _ exDraws_valid
    (mock_obd_data_eq exDraws 0 exDraws_valid)⟩

/-- C2: the MIL (check-engine) indicator of a generated snapshot is
    true if and only if the DTC list is non-empty. -/
theorem C2_mil_iff_dtcs (d : Draws) (now : ℚ) (s : Snapshot)
    (hd : DrawsValid d) (h : mock_obd_data d now = .ok s) :
    s.mil_status = true ↔ s.dtcs ≠ [] := by
  rw [mock_obd_data_eq d now hd] at h
  obtain ⟨⟨h1, _⟩, hs, _⟩ := hd
  cases h
  cases hh : d.has_dtc with
  | false => simp [snapshotOf, hh]
  | true =>
      obtain ⟨hl, _, _⟩ := hs hh
      simp only [snapshotOf, hh, if_pos, ne_eq, true_iff]
      intro he
      rw [he] at hl
      simp at hl
      omega

theorem C2_mil_iff_dtcs_witness :
    DrawsValid exDraws ∧
      ((snapshotOf exDraws 0
          (if exDraws.has_dtc then exDraws.dtcDraw else [])).mil_status = true ↔
        (snapshotOf exDraws 0
          (if exDraws.has_dtc then exDraws.dtcDraw else [])).dtcs ≠ []) :=
  ⟨exDraws_valid, C2_mil_iff_dtcs exDraws 0 _ exDraws_valid
    (mock_obd_data_eq exDraws 0 exDraws_valid)⟩

/-- C3: the DTC list of a generated snapshot has no duplicates, length
    at most 3, draws only from the fixed 10-entry catalog, and is
    non-empty whenever the MIL indicator is on. -/
theorem C3_dtcs_wellformed (d : Draws) (now : ℚ) (s : Snapshot)
    (hd : DrawsValid d) (h : mock_obd_data d now = .ok s) :
    s.dtcs.Nodup ∧ s.dtcs.length ≤ 3 ∧ (∀ x ∈ s.dtcs, x ∈ dtc_pool) ∧
      (s.mil_status = true → 1 ≤ s.dtcs.length) := by
  rw [mock_obd_data_eq d now hd] at h
  obtain ⟨⟨h1, h2⟩, hs, _⟩ := hd
  cases h
  cases hh : d.has_dtc with
  | false => simp [snapshotOf, hh]
  | true =>
      obtain ⟨hl, hnd, hmem⟩ := hs hh
      simp only [snapshotOf, hh, if_pos]
      exact ⟨hnd, by omega, hmem, fun _ => by omega⟩

theorem C3_dtcs_wellformed_witness :
    DrawsValid exDraws ∧
      ((snapshotOf exDraws 0
          (if exDraws.has_dtc then exDraws.dtcDraw else [])).dtcs.Nodup ∧
        (snapshotOf exDraws 0
          (if exDraws.has_dtc then exDraws.dtcDraw else [])).dtcs.length ≤ 3 ∧
        (∀ x ∈ (snapshotOf exDraws 0
          (if exDraws.has_dtc then exDraws.dtcDraw else [])).dtcs, x ∈ dtc_pool) ∧
        ((snapshotOf exDraws 0
            (if exDraws.has_dtc then exDraws.dtcDraw else [])).mil_status = true →
          1 ≤ (snapshotOf exDraws 0
            (if exDraws.has_dtc then exDraws.dtcDraw else [])).dtcs.length)) :=
  ⟨exDraws_valid, C3_dtcs_wellformed exDraws 0 _ exDraws_valid
    (mock_obd_data_eq exDraws 0 exDraws_valid)⟩

/-- C9: the `dtc_count` field of a generated snapshot equals the length
    of its DTC list; it is 0 exactly when the MIL is off and otherwise
    lies between 1 and 3. -/
theorem C9_dtc_count_consistent (d : Draws) (now : ℚ) (s : Snapshot)
    (hd : DrawsValid d) (h : mock_obd_data d now = .ok s) :
    s.dtc_count = s.dtcs.length ∧ (s.dtc_count = 0 ↔ s.mil_status = false) ∧
      (s.mil_status = true → 1 ≤ s.dtc_count ∧ s.dtc_count ≤ 3) := by
  rw [mock_obd_data_eq d now hd] at h
  obtain ⟨⟨h1, h2⟩, hs, _⟩ := hd
  cases h
  cases hh : d.has_dtc with
  | false => simp [snapshotOf, hh]
  | true =>
      obtain ⟨hl, _, _⟩ := hs hh
      simp only [snapshotOf, hh, if_pos]
      refine ⟨?_, by simp; omega, fun _ => ⟨h1, h2⟩⟩
      rw [hl]
      omega

theorem C9_dtc_count_consistent_witness :
    DrawsValid exDraws ∧
      ((snapshotOf exDraws 0
          (if exDraws.has_dtc then exDraws.dtcDraw else [])).dtc_count =
        (snapshotOf exDraws 0
          (if exDraws.has_dtc then exDraws.dtcDraw else [])).dtcs.length) :=
  ⟨exDraws_valid, (C9_dtc_count_consistent exDraws 0 _ exDraws_valid
    (mock_obd_data_eq exDraws 0 exDraws_valid)).1⟩

/-- The fields of a snapshot that are derived from the RNG draws alone
    (every field except the two wall-clock timestamp fields). -/
def sameDrawFields (s1 s2 : Snapshot) : Prop :=
  s1.rpm = s2.rpm ∧ s1.speed = s2.speed ∧
  s1.throttle_position = s2.throttle_position ∧
  s1.engine_load = s2.engine_load ∧ s1.coolant_temp = s2.coolant_temp ∧
  s1.intake_temp = s2.intake_temp ∧ s1.oil_temp = s2.oil_temp ∧
  s1.fuel_level = s2.fuel_level ∧ s1.fuel_pressure = s2.fuel_pressure ∧
  s1.fuel_rate = s2.fuel_rate ∧ s1.maf = s2.maf ∧
  s1.intake_pressure = s2.intake_pressure ∧
  s1.battery_voltage = s2.battery_voltage ∧
  s1.ambient_temp = s2.ambient_temp ∧
  s1.barometric_pressure = s2.barometric_pressure ∧
  s1.distance = s2.distance ∧ s1.runtime = s2.runtime ∧
  s1.mil_status = s2.mil_status ∧ s1.dtc_count = s2.dtc_count ∧
  s1.dtcs = s2.dtcs

/-- C4 as stated is false: re-seeding the RNG identically fixes every
    RNG draw, but the two snapshots also carry wall-clock timestamps,
    which differ between two calls made at different times. -/
theorem C4_counterexample :
    mock_obd_data exDraws 0 ≠ mock_obd_data exDraws 1 := by
  rw [mock_obd_data_eq exDraws 0 exDraws_valid,
    mock_obd_data_eq exDraws 1 exDraws_valid]
  intro h
  have h2 := congrArg
    (fun x => match x with | .ok s => s.timestamp | .error _ => (0 : ℚ)) h
  simp only [snapshotOf] at h2
  exact absurd h2 (by norm_num)

/-- C4 amended: two calls of `mock_obd_data` made from the same RNG
    draw record (i.e. with the global RNG re-seeded to the same fixed
    seed before each call) agree on every RNG-derived field; only the
    two wall-clock timestamp fields may differ. -/
theorem C4_same_seed_same_draw_fields (d : Draws) (t1 t2 : ℚ)
    (s1 s2 : Snapshot) (hd : DrawsValid d) (h1 : mock_obd_data d t1 = .ok s1)
    (h2 : mock_obd_data d t2 = .ok s2) : sameDrawFields s1 s2 := by
  rw [mock_obd_data_eq d t1 hd] at h1
  rw [mock_obd_data_eq d t2 hd] at h2
  cases h1
  cases h2
  exact ⟨rfl, rfl, rfl, rfl, rfl, rfl, rfl, rfl, rfl, rfl, rfl, rfl, rfl,
    rfl, rfl, rfl, rfl, rfl, rfl, rfl⟩

theorem C4_same_seed_same_draw_fields_witness :
    sameDrawFields
      (snapshotOf exDraws 0 (if exDraws.has_dtc then exDraws.dtcDraw else []))
      (snapshotOf exDraws 1 (if exDraws.has_dtc then exDraws.dtcDraw else [])) :=
  C4_same_seed_same_draw_fields exDraws 0 1 _ _ exDraws_valid
    (mock_obd_data_eq exDraws 0 exDraws_valid)
    (mock_obd_data_eq exDraws 1 exDraws_valid)

/-- C5 as stated is false: the selection step is `random.sample`, which
    raises `ValueError` when the requested count exceeds the catalog
    size instead of capping it (here: count 11 against the 10-entry
    catalog). -/
theorem C5_counterexample :
    randSample dtc_pool 11 [] =
      .error "Sample larger than population or is negative" := rfl

/-- C5 amended: for every requested fault count at most the catalog
    size the selection step returns the drawn codes without error; for
    a count exceeding the catalog size it raises `ValueError` rather
    than capping the selection.  (In the program the requested count is
    `randint(1, 3)`, so the error branch is unreachable.) -/
theorem C5_sample_cap (k : ℕ) (draw : List Dtc) :
    (k ≤ dtc_pool.length → randSample dtc_pool k draw = .ok draw) ∧
    (dtc_pool.length < k →
      randSample dtc_pool k draw =
        .error "Sample larger than population or is negative") := by
  constructor <;> intro h <;> unfold randSample
  · rw [if_neg (by omega)]
  · rw [if_pos h]

theorem C5_sample_cap_witness :
    randSample dtc_pool 3 exDraws.dtcDraw = .ok exDraws.dtcDraw :=
  (C5_sample_cap 3 exDraws.dtcDraw).1 (by rw [dtc_pool_length]; omega)

/-- The loop of `mock_obd_stream` from `src/mock_obd.py` under
    idealized timing: `mock_obd_data()` is instantaneous and
    `time.sleep(interval)` advances the wall clock by exactly
    `interval`.  `ds k` is the RNG draw record consumed by the `k`-th
    call, `t` the current wall-clock time. -/
def streamGo (ds : ℕ → Draws) (endTime interval : ℚ)
    (hpos : 0 < interval) (k : ℕ) (t : ℚ) : List (Except String Snapshot) :=
  if h : t < endTime then
    mock_obd_data (ds k) t ::
      streamGo ds endTime interval hpos (k + 1) (t + interval)
  else []
termination_by (⌈(endTime - t) / interval⌉).toNat
decreasing_by
  have hne : interval ≠ 0 := ne_of_gt hpos
  have hpos' : (0 : ℚ) < (endTime - t) / interval :=
    div_pos (by linarith) hpos
  have hc1 : 1 ≤ ⌈(endTime - t) / interval⌉ := Int.ceil_pos.mpr hpos'
  have heq : (endTime - (t + interval)) / interval =
      (endTime - t) / interval - 1 := by
    field_simp
    ring
  rw [heq, Int.ceil_sub_one]
  omega

/-- `mock_obd_stream(duration_seconds, interval)`: compute
    `end_time = time.time() + duration_seconds` (here `t0` is the start
    time) and yield snapshots until the clock reaches it. -/
def mock_obd_stream (ds : ℕ → Draws) (duration_seconds interval : ℚ)
    (hpos : 0 < interval) (t0 : ℚ) : List (Except String Snapshot) :=
  streamGo ds (t0 + duration_seconds) interval hpos 0 t0

lemma streamGo_eq (ds : ℕ → Draws) (endTime interval : ℚ)
    (hpos : 0 < interval) (k : ℕ) (t : ℚ) :
    streamGo ds endTime interval hpos k t =
      if t < endTime then
        mock_obd_data (ds k) t ::
          streamGo ds endTime interval hpos (k + 1) (t + interval)
      else [] := by
  rw [streamGo]
  split <;> rfl

/-- C6: with duration 3 and interval 1, the stream yields exactly 3
    snapshots, each carrying a timestamp strictly greater than the
    previous one, and then terminates (the result is a finite list). -/
theorem C6_stream_three (ds : ℕ → Draws) (t0 : ℚ)
    (hpos : (0 : ℚ) < 1) (hds : ∀ k, DrawsValid (ds k)) :
    (mock_obd_stream ds 3 1 hpos t0).length = 3 ∧
      ∃ s0 s1 s2, mock_obd_stream ds 3 1 hpos t0 = [.ok s0, .ok s1, .ok s2] ∧
        s0.timestamp < s1.timestamp ∧ s1.timestamp < s2.timestamp := by
  have e : mock_obd_stream ds 3 1 hpos t0 =
      [mock_obd_data (ds 0) t0, mock_obd_data (ds 1) (t0 + 1),
        mock_obd_data (ds 2) (t0 + 1 + 1)] := by
    unfold mock_obd_stream
    rw [streamGo_eq, if_pos (by linarith)]
    rw [streamGo_eq, if_pos (by linarith)]
    rw [streamGo_eq, if_pos (by linarith)]
    rw [streamGo_eq, if_neg (by linarith)]
  rw [e, mock_obd_data_eq (ds 0) t0 (hds 0),
    mock_obd_data_eq (ds 1) (t0 + 1) (hds 1),
    mock_obd_data_eq (ds 2) (t0 + 1 + 1) (hds 2)]
  refine ⟨rfl, _, _, _, rfl, ?_, ?_⟩ <;> simp [snapshotOf] <;> linarith

theorem C6_stream_three_witness :
    (mock_obd_stream (fun _ => exDraws) 3 1 (by norm_num) 0).length = 3 :=
  (C6_stream_three (fun _ => exDraws) 0 (by norm_num)
    (fun _ => exDraws_valid)).1

/-- `VEHICLE_ID = os.getenv("VEHICLE_ID", "vehicle_001")` (default). -/
def VEHICLE_ID : String := "vehicle_001"

/-- Python truthiness of an `os.getenv` result: `None` and the empty
    string are falsy. -/
def pyTruthy : Option String → Bool
  | none => false
  | some s => !s.isEmpty

/-- The `DB` object of `src/utils.py` after construction: the four
    InfluxDB settings, the vehicle id, and the client handle, which the
    constructor initializes to `None` (the connection is only opened by
    `__enter__`). -/
structure DB where
  url : Option String
  token : Option String
  org : Option String
  bucket : Option String
  vehicle_id : String
  client : Option Unit

/-- `DB.__init__` from `src/utils.py`: store the four environment
    settings and `client = None`, then validate each setting in order,
    raising `ValueError` for the first falsy one.  No connection is
    attempted here. -/
def DB.init (env_url env_token env_org env_bucket : Option String) :
    Except String DB :=
  if !pyTruthy env_url then
    .error "INFLUXDB_URL environment variable is required"
  else if !pyTruthy env_token then
    .error "INFLUXDB_TOKEN environment variable is required"
  else if !pyTruthy env_org then
    .error "INFLUXDB_ORG environment variable is required"
  else if !pyTruthy env_bucket then
    .error "INFLUXDB_BUCKET environment variable is required"
  else
    .ok { url := env_url, token := env_token, org := env_org,
          bucket := env_bucket, vehicle_id := VEHICLE_ID, client := none }

/-- A setting is missing or empty (the claim's wording). -/
def MissingOrEmpty (v : Option String) : Prop := v = none ∨ v = some ""

lemma pyTruthy_false_iff (v : Option String) :
    pyTruthy v = false ↔ MissingOrEmpty v := by
  cases v with
  | none => simp [pyTruthy, MissingOrEmpty]
  | some s =>
      simp only [pyTruthy, MissingOrEmpty, Bool.not_eq_false',
        String.isEmpty_iff, reduceCtorEq, Option.some.injEq, false_or]

/-- C7: `DB` construction fails with `ValueError` if and only if one of
    the four required settings is missing or empty, and on success the
    client handle is still `None`: validation happens in the
    constructor, before any connection to the store is attempted. -/
theorem C7_db_init_validation (u t o b : Option String) :
    ((∃ e, DB.init u t o b = .error e) ↔
      MissingOrEmpty u ∨ MissingOrEmpty t ∨ MissingOrEmpty o ∨
        MissingOrEmpty b) ∧
    ∀ db, DB.init u t o b = .ok db → db.client = none := by
  constructor
  · rw [← pyTruthy_false_iff, ← pyTruthy_false_iff, ← pyTruthy_false_iff,
      ← pyTruthy_false_iff]
    unfold DB.init
    cases hu : pyTruthy u <;> cases ht : pyTruthy t <;>
      cases ho : pyTruthy o <;> cases hb : pyTruthy b <;> simp
  · intro db h
    unfold DB.init at h
    cases hu : pyTruthy u <;> rw [hu] at h <;> simp at h
    cases ht : pyTruthy t <;> rw [ht] at h <;> simp at h
    cases ho : pyTruthy o <;> rw [ho] at h <;> simp at h
    cases hb : pyTruthy b <;> rw [hb] at h <;> simp at h
    rw [← h]

theorem C7_db_init_validation_witness :
    (∃ e, DB.init none (some "tok") (some "org") (some "bkt") = .error e) ∧
    ({ url := some "u", token := some "tok", org := some "org",
        bucket := some "bkt", vehicle_id := VEHICLE_ID,
        client := none } : DB).client = none :=
  ⟨(C7_db_init_validation none (some "tok") (some "org") (some "bkt")).1.mpr
      (Or.inl (Or.inl rfl)),
    (C7_db_init_validation (some "u") (some "tok") (some "org")
      (some "bkt")).2 _ rfl⟩

/-- The JSON value universe produced by `json.dumps`/`json.loads` for a
    snapshot: Python ints and floats stay distinct value kinds through
    the round trip. -/
inductive Json where
  | jnull
  | jbool (b : Bool)
  | jint (n : ℤ)
  | jfloat (q : ℚ)
  | jstr (s : String)
  | jarr (xs : List Json)
  | jobj (kvs : List (String × Json))

/-- One DTC entry of the `dtcs` list in mapping form. -/
def dtcToJson (d : Dtc) : Json :=
  .jobj [("code", .jstr d.code), ("description", .jstr d.description)]

def dtcFromJson : Json → Option Dtc
  | .jobj [("code", .jstr c), ("description", .jstr desc)] => some ⟨c, desc⟩
  | _ => none

def decodeDtcs : List Json → Option (List Dtc)
  | [] => some []
  | j :: t =>
      match dtcFromJson j, decodeDtcs t with
      | some d, some ds => some (d :: ds)
      | _, _ => none

/-- The snapshot's mapping (JSON) form, keys in source order.  The ISO
    timestamp is represented by its underlying time value. -/
def toJson (s : Snapshot) : Json :=
  .jobj
    [ ("rpm", .jint s.rpm),
      ("speed", .jint s.speed),
      ("throttle_position", .jfloat s.throttle_position),
      ("engine_load", .jfloat s.engine_load),
      ("coolant_temp", .jint s.coolant_temp),
      ("intake_temp", .jint s.intake_temp),
      ("oil_temp", .jint s.oil_temp),
      ("fuel_level", .jfloat s.fuel_level),
      ("fuel_pressure", .jfloat s.fuel_pressure),
      ("fuel_rate", .jfloat s.fuel_rate),
      ("maf", .jfloat s.maf),
      ("intake_pressure", .jfloat s.intake_pressure),
      ("battery_voltage", .jfloat s.battery_voltage),
      ("ambient_temp", .jint s.ambient_temp),
      ("barometric_pressure", .jfloat s.barometric_pressure),
      ("distance", .jfloat s.distance),
      ("runtime", .jint s.runtime),
      ("mil_status", .jbool s.mil_status),
      ("dtc_count", .jint s.dtc_count),
      ("dtcs", .jarr (s.dtcs.map dtcToJson)),
      ("timestamp", .jfloat s.timestamp),
      ("unix_timestamp", .jint s.unix_timestamp) ]

/-- Deserialization back into a snapshot; each field must come back
    with the same key, in order, and with its original value kind. -/
def fromJson : Json → Option Snapshot
  | .jobj
      [ ("rpm", .jint rpm),
        ("speed", .jint speed),
        ("throttle_position", .jfloat throttle_position),
        ("engine_load", .jfloat engine_load),
        ("coolant_temp", .jint coolant_temp),
        ("intake_temp", .jint intake_temp),
        ("oil_temp", .jint oil_temp),
        ("fuel_level", .jfloat fuel_level),
        ("fuel_pressure", .jfloat fuel_pressure),
        ("fuel_rate", .jfloat fuel_rate),
        ("maf", .jfloat maf),
        ("intake_pressure", .jfloat intake_pressure),
        ("battery_voltage", .jfloat battery_voltage),
        ("ambient_temp", .jint ambient_temp),
        ("barometric_pressure", .jfloat barometric_pressure),
        ("distance", .jfloat distance),
        ("runtime", .jint runtime),
        ("mil_status", .jbool mil_status),
        ("dtc_count", .jint dtc_count),
        ("dtcs", .jarr ds),
        ("timestamp", .jfloat timestamp),
        ("unix_timestamp", .jint unix_timestamp) ] =>
      (decodeDtcs ds).map fun dtcs =>
        { rpm := rpm, speed := speed,
          throttle_position := throttle_position,
          engine_load := engine_load, coolant_temp := coolant_temp,
          intake_temp := intake_temp, oil_temp := oil_temp,
          fuel_level := fuel_level, fuel_pressure := fuel_pressure,
          fuel_rate := fuel_rate, maf := maf,
          intake_pressure := intake_pressure,
          battery_voltage := battery_voltage,
          ambient_temp := ambient_temp,
          barometric_pressure := barometric_pressure,
          distance := distance, runtime := runtime,
          mil_status := mil_status, dtc_count := dtc_count,
          dtcs := dtcs, timestamp := timestamp,
          unix_timestamp := unix_timestamp }
  | _ => none

lemma decodeDtcs_map (l : List Dtc) : decodeDtcs (l.map dtcToJson) = some l := by
  induction l with
  | nil => rfl
  | cons hd tl ih => simp [decodeDtcs, dtcToJson, dtcFromJson, ih]

set_option maxHeartbeats 1000000 in
lemma fromJson_toJson (s : Snapshot) : fromJson (toJson s) = some s := by
  have h1 : fromJson (toJson s) =
      (decodeDtcs (s.dtcs.map dtcToJson)).map
        (fun dtcs => { s with dtcs := dtcs }) := rfl
  rw [h1, decodeDtcs_map]
  rfl

/-- C8: serializing a generated snapshot to its mapping (JSON) form and
    deserializing it back yields the identical snapshot: every field
    keeps its value and its value kind (int, float, bool, string,
    list). -/
theorem C8_serialization_roundtrip (d : Draws) (now : ℚ) (s : Snapshot)
    (hd : DrawsValid d) (h : mock_obd_data d now = .ok s) :
    fromJson (toJson s) = some s := fromJson_toJson s

theorem C8_serialization_roundtrip_witness :
    DrawsValid exDraws ∧
      fromJson (toJson (snapshotOf exDraws 0
        (if exDraws.has_dtc then exDraws.dtcDraw else []))) =
        some (snapshotOf exDraws 0
          (if exDraws.has_dtc then exDraws.dtcDraw else [])) :=
  ⟨exDraws_valid, C8_serialization_roundtrip exDraws 0 _ exDraws_valid
    (mock_obd_data_eq exDraws 0 exDraws_valid)⟩

/-- An InfluxDB field value as written by `store_to_db`. -/
inductive FieldValue where
  | fint (n : ℤ)
  | ffloat (q : ℚ)
  | fstr (s : String)
deriving DecidableEq, Repr

/-- One InfluxDB `Point`: measurement name, tag pairs and field pairs
    in the order the source attaches them. -/
structure Point where
  measurement : String
  tags : List (String × String)
  fields : List (String × FieldValue)
deriving DecidableEq, Repr

/-- Python `str(bool)`. -/
def pyStrBool (b : Bool) : String := if b then "True" else "False"

/-- Python `str.lower()` (the descriptions are ASCII). -/
def lowerStr (s : String) : String := String.mk (s.toList.map Char.toLower)

def isPrefixCL : List Char → List Char → Bool
  | [], _ => true
  | _ :: _, [] => false
  | a :: as, b :: bs => a == b && isPrefixCL as bs

/-- Python `needle in hay` on strings, as a character-list scan. -/
def isSubCL (ns : List Char) : List Char → Bool
  | [] => ns.isEmpty
  | b :: bs => isPrefixCL ns (b :: bs) || isSubCL ns bs

/-- `"misfire" in dtc["description"].lower()` from `store_to_db`. -/
def containsMisfire (desc : String) : Bool :=
  isSubCL "misfire".toList (lowerStr desc).toList

/-- The `obd_readings` point built by `store_to_db`: vehicle and MIL
    tags plus every numeric field of the reading. -/
def point (s : Snapshot) : Point :=
  { measurement := "obd_readings"
    tags := [("vehicle_id", VEHICLE_ID), ("mil_status", pyStrBool s.mil_status)]
    fields :=
      [ ("rpm", .fint s.rpm),
        ("speed", .fint s.speed),
        ("throttle_position", .ffloat s.throttle_position),
        ("engine_load", .ffloat s.engine_load),
        ("coolant_temp", .fint s.coolant_temp),
        ("intake_temp", .fint s.intake_temp),
        ("oil_temp", .fint s.oil_temp),
        ("fuel_level", .ffloat s.fuel_level),
        ("fuel_pressure", .ffloat s.fuel_pressure),
        ("fuel_rate", .ffloat s.fuel_rate),
        ("maf", .ffloat s.maf),
        ("intake_pressure", .ffloat s.intake_pressure),
        ("battery_voltage", .ffloat s.battery_voltage),
        ("ambient_temp", .fint s.ambient_temp),
        ("barometric_pressure", .ffloat s.barometric_pressure),
        ("distance", .ffloat s.distance),
        ("runtime", .fint s.runtime),
        ("dtc_count", .fint s.dtc_count) ] }

/-- The `obd_dtc_events` point built by `store_to_db` for one DTC. -/
def dtc_point (s : Snapshot) (dtc : Dtc) : Point :=
  { measurement := "obd_dtc_events"
    tags :=
      [ ("vehicle_id", VEHICLE_ID),
        ("dtc_code", dtc.code),
        ("severity", if containsMisfire dtc.description then "high"
                     else "medium") ]
    fields :=
      [ ("description", .fstr dtc.description),
        ("rpm", .fint s.rpm),
        ("speed", .fint s.speed),
        ("coolant_temp", .fint s.coolant_temp),
        ("engine_load", .ffloat s.engine_load) ] }

/-- `store_to_db` from `src/mock_obd.py`, as the ordered list of points
    passed to `db.store_data`: always the readings point, then, only
    when `dtc_count > 0`, one event point per DTC. -/
def store_to_db (s : Snapshot) : List Point :=
  point s :: (if 0 < s.dtc_count then s.dtcs.map (dtc_point s) else [])

/-- The claim's wording of the severity condition: the description
    contains "misfire" case-insensitively. -/
def ContainsCI (needle hay : String) : Prop :=
  ∃ l r : List Char, (lowerStr hay).toList = l ++ needle.toList ++ r

lemma isPrefixCL_iff (ns : List Char) :
    ∀ hs : List Char, isPrefixCL ns hs = true ↔ ∃ r, hs = ns ++ r := by
  induction ns with
  | nil => intro hs; simp [isPrefixCL]
  | cons a as ih =>
      intro hs
      cases hs with
      | nil =>
          simp [isPrefixCL]
      | cons b bs =>
          simp only [isPrefixCL, Bool.and_eq_true, beq_iff_eq, ih bs,
            List.cons_append, List.cons.injEq]
          constructor
          · rintro ⟨rfl, r, rfl⟩
            exact ⟨r, rfl, rfl⟩
          · rintro ⟨r, rfl, rfl⟩
            exact ⟨rfl, r, rfl⟩

lemma isSubCL_iff (ns : List Char) :
    ∀ hs : List Char, isSubCL ns hs = true ↔ ∃ l r, hs = l ++ ns ++ r := by
  intro hs
  induction hs with
  | nil =>
      simp only [isSubCL, List.isEmpty_iff]
      constructor
      · rintro rfl
        exact ⟨[], [], rfl⟩
      · rintro ⟨l, r, h⟩
        cases l <;> cases ns <;> simp_all
  | cons b bs ih =>
      simp only [isSubCL, Bool.or_eq_true, isPrefixCL_iff, ih]
      constructor
      · rintro (⟨r, h⟩ | ⟨l, r, rfl⟩)
        · exact ⟨[], r, by simpa using h⟩
        · exact ⟨b :: l, r, rfl⟩
      · rintro ⟨l, r, h⟩
        cases l with
        | nil =>
            exact Or.inl ⟨r, by simpa using h⟩
        | cons x xs =>
            rw [List.cons_append, List.cons_append] at h
            cases h
            exact Or.inr ⟨xs, r, rfl⟩

lemma containsMisfire_iff (desc : String) :
    containsMisfire desc = true ↔ ContainsCI "misfire" desc :=
  isSubCL_iff "misfire".toList (lowerStr desc).toList

/-- C10: for a reading whose `dtc_count` matches its DTC list (as every
    generated snapshot does), `store_to_db` issues exactly
    `1 + len(dtcs)` store operations: first the `obd_readings` point,
    then one `obd_dtc_events` point per DTC, whose severity tag is
    "high" exactly when the description contains "misfire"
    case-insensitively and "medium" otherwise. -/
theorem C10_store_operations (s : Snapshot)
    (h : s.dtc_count = (s.dtcs.length : ℤ)) :
    store_to_db s = point s :: s.dtcs.map (dtc_point s) ∧
    (store_to_db s).length = 1 + s.dtcs.length ∧
    ∀ d ∈ s.dtcs,
      (dtc_point s d).measurement = "obd_dtc_events" ∧
      ((dtc_point s d).tags.lookup "severity" = some "high" ↔
        ContainsCI "misfire" d.description) ∧
      ((dtc_point s d).tags.lookup "severity" = some "medium" ↔
        ¬ ContainsCI "misfire" d.description) := by
  have he : store_to_db s = point s :: s.dtcs.map (dtc_point s) := by
    unfold store_to_db
    cases hd : s.dtcs with
    | nil =>
        rw [hd] at h
        simp only [List.length_nil, Nat.cast_zero] at h
        rw [h]
        simp
    | cons x xs =>
        have : 0 < s.dtc_count := by
          rw [hd] at h
          simp only [List.length_cons] at h
          omega
        rw [if_pos this]
  refine ⟨he, by rw [he]; simp [Nat.add_comm], ?_⟩
  intro d _
  refine ⟨rfl, ?_, ?_⟩
  · rw [← containsMisfire_iff]
    unfold dtc_point
    cases hc : containsMisfire d.description <;>
      simp [List.lookup, VEHICLE_ID]
  · rw [← containsMisfire_iff]
    unfold dtc_point
    cases hc : containsMisfire d.description <;>
      simp [List.lookup, VEHICLE_ID]

/-- A concrete reading for the storage-writer claim. -/
def exSnap : Snapshot :=
  snapshotOf exDraws 0 (if exDraws.has_dtc then exDraws.dtcDraw else [])

theorem C10_store_operations_witness :
    exSnap.dtc_count = (exSnap.dtcs.length : ℤ) ∧
      (store_to_db exSnap).length = 1 + exSnap.dtcs.length :=
  ⟨by simp [exSnap, snapshotOf, exDraws],
    (C10_store_operations exSnap
      (by simp [exSnap, snapshotOf, exDraws])).2.1⟩
